import Mathlib

/-!
Shallow embedding of four GCP artifact/NPM workflow tools
(`gcp_artifact_push.py`, `gcp_npm_pull.py`, `gcp_npm_push.py`,
`gcp_npm_publish.py`).

External collaborators (the auth CLI, the package-manager CLI, the registry
CLI, the wall clock, `tempfile.mkdtemp`, and the tar codec) are modelled as
oracles supplied in an environment record.  Each workflow returns its
structured result together with an ordered trace of the events it performed
(subprocess invocations, recorded with whether a `timeout=` argument was
passed, and filesystem operations).
-/

set_option autoImplicit false

namespace GcpTools

/-! ## String helpers (kernel-reducible counterparts of the Python string
operations used by the sources) -/

/-- Split a character list at every slash; mirrors Python `s.split("/")`
(`"".split("/") == [""]`). -/
def splitSlashAux : List Char → List (List Char)
  | [] => [[]]
  | c :: cs =>
    let rest := splitSlashAux cs
    if c = '/' then [] :: rest
    else
      match rest with
      | r :: rs => (c :: r) :: rs
      | [] => [[c]]

/-- Python `repository_path.split("/")`. -/
def splitSlash (s : String) : List String :=
  (splitSlashAux s.data).map List.asString

/-- True on the whitespace characters Python `str.strip` removes (the ones
relevant to CLI output). -/
def isSpaceChar (c : Char) : Bool :=
  c = ' ' || c = '\n' || c = '\t' || c = '\r'

/-- Drop leading whitespace from a character list. -/
def dropSpaces : List Char → List Char
  | [] => []
  | c :: cs => if isSpaceChar c then dropSpaces cs else c :: cs

/-- Python `s.strip()`. -/
def stripStr (s : String) : String :=
  List.asString ((dropSpaces ((dropSpaces s.data).reverse)).reverse)

/-- Whether the character list `l` ends with `suf`. -/
def listEndsWith (suf l : List Char) : Bool :=
  decide (suf.length ≤ l.length) && (l.drop (l.length - suf.length) == suf)

/-- Python `f.endswith(".tgz")`. -/
def endsWithTgz (s : String) : Bool :=
  listEndsWith [Char.ofNat 46, 't', 'g', 'z'] s.data

/-- Whether `s` is an absolute path (starts with a slash). -/
def isAbs (s : String) : Bool :=
  match s.data with
  | c :: _ => c = '/'
  | [] => false

/-- Python `os.path.join a b` for the two-argument uses in the sources. -/
def joinPath (a b : String) : String :=
  if isAbs b then b
  else if a == "" then b
  else if listEndsWith ['/'] a.data then a ++ b
  else a ++ "/" ++ b

/-- Python `os.path.basename`: everything after the final slash. -/
def basename (p : String) : String :=
  match (splitSlash p).getLast? with
  | some s => s
  | none => ""

/-- Truthiness of an optional string argument, as tested by Python
`if not x:` after `x = args.get(...)`. -/
def truthy : Option String → Bool
  | none => false
  | some s => !(s == "")

/-! ## Clock -/

/-- A wall-clock reading, as consumed by `datetime.datetime.now().strftime`. -/
structure DateTime where
  year : Nat
  month : Nat
  day : Nat
  hour : Nat
  minute : Nat
  sec : Nat
deriving DecidableEq, Repr

/-- Zero-padded two-digit rendering of a field, as `strftime` does. -/
def pad2 (n : Nat) : String :=
  if n < 10 then "0" ++ toString n else toString n

/-- Zero-padded four-digit rendering of the year, as `strftime` does. -/
def pad4 (n : Nat) : String :=
  if n < 10 then "000" ++ toString n
  else if n < 100 then "00" ++ toString n
  else if n < 1000 then "0" ++ toString n
  else toString n

/-- The Archive Builder timestamp format `%Y%m%d_%H%M%S`. -/
def strftimeUnderscore (dt : DateTime) : String :=
  pad4 dt.year ++ pad2 dt.month ++ pad2 dt.day ++ "_" ++
    pad2 dt.hour ++ pad2 dt.minute ++ pad2 dt.sec

/-- The Archive Uploader version format `%Y%m%d.%H%M%S`. -/
def strftimeDot (dt : DateTime) : String :=
  pad4 dt.year ++ pad2 dt.month ++ pad2 dt.day ++ "." ++
    pad2 dt.hour ++ pad2 dt.minute ++ pad2 dt.sec

/-! ## Subprocesses -/

/-- What a completed subprocess reports back
(`returncode`, `stdout`, `stderr` of `subprocess.run(..., capture_output=True)`). -/
structure ProcResult where
  returncode : Int
  stdout : String
  stderr : String
deriving DecidableEq, Repr

/-- Oracle for one subprocess invocation: how long the process would run
and what it reports if allowed to finish. -/
structure ProcBehavior where
  duration : Nat
  res : ProcResult
deriving DecidableEq, Repr

/-- `subprocess.run`: with `timeout=t` it raises `TimeoutExpired`
(modelled as `Except.error ()`) when the process runs past `t` seconds;
without a timeout argument it always blocks until completion. -/
def subprocessRun (b : ProcBehavior) (timeoutArg : Option Nat) : Except Unit ProcResult :=
  match timeoutArg with
  | none => Except.ok b.res
  | some t => if t < b.duration then Except.error () else Except.ok b.res

/-- One recorded CLI invocation: the argv list and the `timeout=` argument
passed to `subprocess.run` (`none` when the call site passes no timeout). -/
structure Call where
  argv : List String
  timeoutArg : Option Nat
deriving DecidableEq, Repr

/-- Observable events of a workflow run, in order. -/
inductive Event where
  | proc (c : Call)
  | mkdtemp
  | makedirs (dir : String)
  | tarCreate (path : String) (rootEntry : String)
  | tarExtract (path : String) (dest : String)
  | writeFile (path : String)
  | chmod (path : String)
  | rmtree
deriving DecidableEq, Repr

/-! ## Auth Provisioner (`setup_gcp_auth`, duplicated verbatim in
`gcp_artifact_push.py`, `gcp_npm_pull.py` and `gcp_npm_push.py`, differing
only in the docker-registry hostname) -/

/-- Oracle for the two auth-CLI invocations. -/
structure AuthEnv where
  tokenProc : ProcBehavior
  dockerProc : ProcBehavior
deriving DecidableEq, Repr

/-- `setup_gcp_auth`: run `gcloud auth print-access-token` (no timeout);
on non-zero exit return no token.  Otherwise strip the stdout, run
`gcloud auth configure-docker <host>` (no timeout); on non-zero exit return
no token, discarding the one already obtained.  Returns the token option
and the calls made. -/
def setup_gcp_auth (host : String) (env : AuthEnv) : Option String × List Call :=
  let tokenCall : Call := ⟨["gcloud", "auth", "print-access-token"], none⟩
  match subprocessRun env.tokenProc none with
  | Except.error _ => (none, [tokenCall])
  | Except.ok tp =>
    if tp.returncode ≠ 0 then (none, [tokenCall])
    else
      let token := stripStr tp.stdout
      let dockerCall : Call := ⟨["gcloud", "auth", "configure-docker", host], none⟩
      match subprocessRun env.dockerProc none with
      | Except.error _ => (none, [tokenCall, dockerCall])
      | Except.ok dp =>
        if dp.returncode ≠ 0 then (none, [tokenCall, dockerCall])
        else (some token, [tokenCall, dockerCall])

/-! ## Archive Builder and Archive Uploader (`gcp_artifact_push.py`) -/

/-- The slice of filesystem state the archive-push workflow touches:
which directories exist, and which gzip tar archives exist (recorded as
path together with the archive root entry, i.e. the `arcname` passed to
`tar.add`). -/
structure FS where
  dirs : List String
  archives : List (String × String)
deriving DecidableEq, Repr

/-- Result of `create_compressed_artifact`. -/
inductive CompressResult where
  | ok (artifact_path : String) (artifact_name : String) (timestamp : String)
  | err (msg : String)
deriving DecidableEq, Repr

/-- `create_compressed_artifact`: stamp `artifact_name` with the current
`%Y%m%d_%H%M%S` time, create the output directory if absent, and write a
gzip tar archive at `output_dir/<name>_<stamp>.tar.gz` whose root entry is
`basename source_dir`.  A missing source directory makes `tar.add` raise;
the exception message text is abstracted.  Returns the new filesystem, the
result, and the filesystem events. -/
def create_compressed_artifact (fs : FS) (now : DateTime)
    (source_dir output_dir artifact_name : String) :
    FS × CompressResult × List Event :=
  let timestamp := strftimeUnderscore now
  let artifact_filename := artifact_name ++ "_" ++ timestamp ++ ".tar.gz"
  let artifact_path := joinPath output_dir artifact_filename
  let fs1 : FS :=
    { fs with dirs := if output_dir ∈ fs.dirs then fs.dirs else output_dir :: fs.dirs }
  if source_dir ∈ fs.dirs then
    ({ fs1 with archives := (artifact_path, basename source_dir) :: fs1.archives },
     CompressResult.ok artifact_path artifact_filename timestamp,
     [Event.makedirs output_dir, Event.tarCreate artifact_path (basename source_dir)])
  else
    (fs1, CompressResult.err ("No such file or directory: " ++ source_dir),
     [Event.makedirs output_dir])

/-- Result of `push_to_artifact_registry`. -/
inductive RegPushResult where
  | ok (repository_url : String) (artifact_path : String) (package : String)
      (version : String) (output : String)
  | err (msg : String)
deriving DecidableEq, Repr

/-- The argv of the registry generic-upload invocation. -/
def uploadArgv (repository_name project_id artifact_name version artifact_path : String) :
    List String :=
  ["gcloud", "artifacts", "generic", "upload",
   "--location=us-central1",
   "--repository=" ++ repository_name,
   "--project=" ++ project_id,
   "--package=" ++ artifact_name,
   "--version=" ++ version,
   "--source=" ++ artifact_path]

/-- `push_to_artifact_registry`: split the repository path on slashes and
reject it when fewer than 3 segments; otherwise take segment 1 as project
and segment 2 as repository, stamp a `%Y%m%d.%H%M%S` version, and run the
registry upload CLI (no timeout argument).  Non-zero exit yields an error
whose detail is the captured stderr prefixed with a fixed message.
The `token` parameter is accepted but unused, as in the source. -/
def push_to_artifact_registry (uploadProc : ProcBehavior) (now : DateTime)
    (artifact_path repository_path artifact_name _token : String) :
    RegPushResult × List Call :=
  let parts := splitSlash repository_path
  if parts.length < 3 then
    (RegPushResult.err
      "Invalid repository path format. Expected: region-docker.pkg.dev/project-id/repository-name",
     [])
  else
    let project_id := parts.getD 1 ""
    let repository_name := parts.getD 2 ""
    let version := strftimeDot now
    let call : Call :=
      ⟨uploadArgv repository_name project_id artifact_name version artifact_path, none⟩
    match subprocessRun uploadProc none with
    | Except.error _ => (RegPushResult.err "", [call])
    | Except.ok p =>
      if p.returncode ≠ 0 then
        (RegPushResult.err ("Failed to push artifact: " ++ p.stderr), [call])
      else
        (RegPushResult.ok ("https://" ++ repository_path) artifact_path artifact_name
          version p.stdout, [call])

/-- Arguments of the `gcp_artifact_push` workflow, after JSON decoding
(`none` marks an absent key). -/
structure PushArgs where
  source_dir : Option String
  repository_path : Option String
  artifact_name : Option String
  output_dir : Option String
  timeout : Option Nat
deriving DecidableEq, Repr

/-- Environment of one `gcp_artifact_push` run: auth oracle, upload
oracle, and the two wall-clock readings taken by the builder and the
uploader. -/
structure PushEnv where
  auth : AuthEnv
  uploadProc : ProcBehavior
  builderNow : DateTime
  uploaderNow : DateTime
deriving DecidableEq, Repr

/-- Result dictionary of `gcp_artifact_push`.  `errOnly` is the bare
`{"error": msg}` shape, `failure` the `{"success": false, "error": msg}`
shape, `ok` the success dictionary. -/
inductive PushResult where
  | errOnly (msg : String)
  | failure (msg : String)
  | ok (artifact_name artifact_path repository timestamp package version output : String)
deriving DecidableEq, Repr

/-- Output of one `gcp_artifact_push` run. -/
structure PushOut where
  result : PushResult
  events : List Event
  fs : FS
deriving DecidableEq, Repr

/-- The `gcp_artifact_push` workflow: validate the three required
arguments (returning bare error dictionaries before any side effect),
make a temporary directory, provision auth, build the archive, upload it,
and clean up the temporary directory on every exit path.  No subprocess
in this workflow is given a timeout, so the `TimeoutExpired` handler is
unreachable. -/
def gcp_artifact_push (env : PushEnv) (fs : FS) (args : PushArgs) : PushOut :=
  let output_dir := args.output_dir.getD "artifacts"
  if !(truthy args.source_dir) then
    ⟨PushResult.errOnly "Source directory is required", [], fs⟩
  else if !(truthy args.repository_path) then
    ⟨PushResult.errOnly "GCP Artifact Registry repository path is required", [], fs⟩
  else if !(truthy args.artifact_name) then
    ⟨PushResult.errOnly "Artifact name is required", [], fs⟩
  else
    let source_dir := args.source_dir.getD ""
    let repository_path := args.repository_path.getD ""
    let artifact_name := args.artifact_name.getD ""
    let (token?, authCalls) := setup_gcp_auth "us-central1-docker.pkg.dev" env.auth
    let ev0 := Event.mkdtemp :: authCalls.map Event.proc
    match token? with
    | none =>
      ⟨PushResult.errOnly "Failed to authenticate with GCP", ev0 ++ [Event.rmtree], fs⟩
    | some token =>
      if token == "" then
        ⟨PushResult.errOnly "Failed to authenticate with GCP", ev0 ++ [Event.rmtree], fs⟩
      else
        let (fs1, compress, compressEvents) :=
          create_compressed_artifact fs env.builderNow source_dir output_dir artifact_name
        match compress with
        | CompressResult.err msg =>
          ⟨PushResult.errOnly ("Failed to create compressed artifact: " ++ msg),
           ev0 ++ compressEvents ++ [Event.rmtree], fs1⟩
        | CompressResult.ok artifact_path artifact_filename timestamp =>
          let (push, pushCalls) :=
            push_to_artifact_registry env.uploadProc env.uploaderNow
              artifact_path repository_path artifact_filename token
          let ev1 := ev0 ++ compressEvents ++ pushCalls.map Event.proc ++ [Event.rmtree]
          match push with
          | RegPushResult.err msg =>
            ⟨PushResult.errOnly ("Failed to push artifact: " ++ msg), ev1, fs1⟩
          | RegPushResult.ok _url path package version output =>
            ⟨PushResult.ok artifact_filename path repository_path timestamp
              package version output, ev1, fs1⟩

/-! ## Registry config writer (`configure_npmrc`, duplicated verbatim in
`gcp_npm_pull.py` and `gcp_npm_push.py`) -/

/-- The `.npmrc` content written by `configure_npmrc`. -/
def npmrcContent (repository_path token : String) : String :=
  "@observability:registry=https://" ++ repository_path ++ "/\n" ++
  "//" ++ repository_path ++ "/:_authToken=" ++ token ++ "\n" ++
  "//" ++ repository_path ++ "/:always-auth=true\n" ++
  "//npm.pkg.dev/:_authToken=${NPM_TOKEN}\n" ++
  "//npm.pkg.dev/:always-auth=true\n" ++
  "registry=https://registry.npmjs.org/\n"

/-- `configure_npmrc`: overwrite `target_dir/.npmrc` with the GCP
configuration, capturing any prior content.  In this idealised filesystem
the write always succeeds.  Returns the captured original content, the
file path, and the content written. -/
def configure_npmrc (targetDir repository_path token : String)
    (priorNpmrc : Option String) : Option String × String × String :=
  (priorNpmrc, joinPath targetDir ".npmrc", npmrcContent repository_path token)

/-! ## Package Puller (`gcp_npm_pull.py`) -/

/-- One entry of the output directory after extraction: a file, or a
directory with its children one level down. -/
inductive Node where
  | file (name : String)
  | dir (name : String) (children : List Node)

/-- The entry's own name. -/
def Node.name : Node → String
  | Node.file n => n
  | Node.dir n _ => n

/-- Move each listed child of `output_dir/package` up to `output_dir`
(`shutil.move(package/<c>, output_dir/<c>)`), against the other top-level
entries `top`.  A child named `package` collides with the source folder
itself and raises; a child whose name matches an existing top-level
directory nests inside it unless that directory already holds that name;
a directory moved onto an existing file raises; a file moved onto an
existing file replaces it. -/
def moveChildren : List Node → List Node → Except String (List Node)
  | [], top => Except.ok top
  | c :: rest, top =>
    if c.name == "package" then
      Except.error "Destination path already exists"
    else
      match top.find? (fun e => e.name == c.name) with
      | none => moveChildren rest (top ++ [c])
      | some (Node.dir dn dcs) =>
        if dcs.any (fun x => x.name == c.name) then
          Except.error "Destination path already exists"
        else
          moveChildren rest
            (top.map (fun e => if e.name == c.name then Node.dir dn (dcs ++ [c]) else e))
      | some (Node.file _) =>
        match c with
        | Node.file fn => moveChildren rest (top.map (fun e => if e.name == c.name then Node.file fn else e))
        | Node.dir _ _ => Except.error "Cannot move a directory over a file"

/-- The flatten step of `gcp_npm_pull` (source lines 183-190): if a
top-level entry named `package` exists, list it (raising when it is a
plain file), move each child up, and remove the then-empty folder.
Absent a `package` entry, the directory is left as is. -/
def flattenPackage (entries : List Node) : Except String (List Node) :=
  match entries.find? (fun e => e.name == "package") with
  | none => Except.ok entries
  | some (Node.file _) => Except.error "Not a directory"
  | some (Node.dir _ children) =>
    moveChildren children (entries.eraseP (fun e => e.name == "package"))

/-- Arguments of the `gcp_npm_pull` workflow. -/
structure PullArgs where
  package_name : Option String
  repository_path : Option String
  version : Option String
  output_dir : Option String
  timeout : Option Nat

/-- Environment of one `gcp_npm_pull` run: the auth oracle, the
`cat`, `npm view` and `npm pack` oracles, the path `mkdtemp` returns,
the temporary directory listing after `npm pack`, and the output
directory's top-level contents after `tar.extractall`. -/
structure PullEnv where
  auth : AuthEnv
  catProc : ProcBehavior
  viewProc : ProcBehavior
  packProc : ProcBehavior
  tempDir : String
  tempFiles : List String
  postExtract : List Node

/-- Result dictionary of `gcp_npm_pull`: `errOnly` for the bare
`{"error": msg}` shape, `failure` for `{"success": false, "error": msg}`,
`ok` for the success dictionary (whose `files` field is the final
top-level listing of the output directory). -/
inductive PullResult where
  | errOnly (msg : String)
  | failure (msg : String)
  | ok (package_name version output_dir : String) (files : List String) (stdout : String)
deriving DecidableEq, Repr

/-- Output of one `gcp_npm_pull` run. -/
structure PullOut where
  result : PullResult
  events : List Event

/-- The `gcp_npm_pull` workflow: validate arguments, make a temporary
directory, provision auth (npm registry host), write `.npmrc` there, `cat`
it (no timeout), `npm view` the versions and `npm pack` the package (both
with the configured timeout; expiry is caught at the boundary and reported
as the timeout error), locate a `.tgz` in the temporary directory, extract
it into the output directory, flatten a top-level `package` folder, and
report the requested version and the final listing.  The temporary
directory is removed on every exit path inside the inner block; an
exception from the flatten step is caught by the generic handler. -/
def gcp_npm_pull (env : PullEnv) (args : PullArgs) : PullOut :=
  let version := args.version.getD "latest"
  let output_dir := args.output_dir.getD "fetched-package"
  let timeout := args.timeout.getD 300
  if !(truthy args.package_name) then
    ⟨PullResult.errOnly "Package name is required", []⟩
  else if !(truthy args.repository_path) then
    ⟨PullResult.errOnly "GCP Artifact Registry repository path is required", []⟩
  else
    let package_name := args.package_name.getD ""
    let repository_path := args.repository_path.getD ""
    let registryUrl := "https://" ++ repository_path ++ "/"
    let (token?, authCalls) := setup_gcp_auth "us-central1-npm.pkg.dev" env.auth
    let ev0 := Event.mkdtemp :: authCalls.map Event.proc
    match token? with
    | none => ⟨PullResult.errOnly "Failed to authenticate with GCP", ev0 ++ [Event.rmtree]⟩
    | some token =>
      if token == "" then
        ⟨PullResult.errOnly "Failed to authenticate with GCP", ev0 ++ [Event.rmtree]⟩
      else
        let (_prior, npmrcPath, _content) := configure_npmrc env.tempDir repository_path token none
        let catCall : Call := ⟨["cat", npmrcPath], none⟩
        let ev1 := ev0 ++ [Event.writeFile npmrcPath, Event.proc catCall]
        let _ := subprocessRun env.catProc none
        let viewCall : Call :=
          ⟨["npm", "view", package_name, "versions", "--registry", registryUrl], some timeout⟩
        let ev2 := ev1 ++ [Event.proc viewCall]
        match subprocessRun env.viewProc (some timeout) with
        | Except.error _ =>
          ⟨PullResult.failure ("Command timed out after " ++ toString timeout ++ " seconds"),
           ev2 ++ [Event.rmtree]⟩
        | Except.ok vp =>
          if vp.returncode ≠ 0 then
            ⟨PullResult.errOnly ("Failed to fetch package versions: " ++ vp.stderr),
             ev2 ++ [Event.rmtree]⟩
          else
            let package_spec :=
              if version != "latest" then package_name ++ "@" ++ version else package_name
            let packCall : Call :=
              ⟨["npm", "pack", package_spec, "--registry", registryUrl], some timeout⟩
            let ev3 := ev2 ++ [Event.proc packCall]
            match subprocessRun env.packProc (some timeout) with
            | Except.error _ =>
              ⟨PullResult.failure ("Command timed out after " ++ toString timeout ++ " seconds"),
               ev3 ++ [Event.rmtree]⟩
            | Except.ok pp =>
              if pp.returncode ≠ 0 then
                ⟨PullResult.failure ("Failed to pack package: " ++ pp.stderr),
                 ev3 ++ [Event.rmtree]⟩
              else
                let tarballs := env.tempFiles.filter endsWithTgz
                match tarballs with
                | [] =>
                  ⟨PullResult.errOnly "No package tarball found after npm pack",
                   ev3 ++ [Event.rmtree]⟩
                | tb :: _ =>
                  let tarball_path := joinPath env.tempDir tb
                  let ev4 := ev3 ++
                    [Event.makedirs output_dir, Event.tarExtract tarball_path output_dir]
                  match flattenPackage env.postExtract with
                  | Except.error e =>
                    ⟨PullResult.failure
                      ("Exception during GCP Artifact Registry NPM pull: " ++ e),
                     ev4 ++ [Event.rmtree]⟩
                  | Except.ok finalNodes =>
                    ⟨PullResult.ok package_name version output_dir
                      (finalNodes.map Node.name) pp.stdout,
                     ev4 ++ [Event.rmtree]⟩

/-! ## Package Publisher (`gcp_npm_push.py`) -/

/-- The package descriptor fields read and written by the workflow
(`json.load` of `package.json`; `none` marks an absent key). -/
structure PackageJson where
  name : Option String
  version : Option String
deriving DecidableEq, Repr

/-- `update_package_version`: read the manifest, remember the old version
(defaulting to `0.1.0`), overwrite the version field with
`0.1.<unix-timestamp>` in whole seconds, and write the manifest back.
Returns the new manifest, the old version, and the new version. -/
def update_package_version (now : Nat) (pkg : PackageJson) :
    PackageJson × String × String :=
  let old_version := pkg.version.getD "0.1.0"
  let new_version := "0.1." ++ toString now
  ({ pkg with version := some new_version }, old_version, new_version)

/-- Arguments of the `gcp_npm_push` workflow. -/
structure NpmPushArgs where
  source_dir : Option String
  repository_path : Option String
  package_name : Option String
  auto_version : Option Bool
  timeout : Option Nat

/-- Environment of one `gcp_npm_push` run: the auth oracle, the
`npm publish` oracle, the unix time read by the version updater, whether
`source_dir/package.json` exists, and its content. -/
structure NpmPushEnv where
  auth : AuthEnv
  publishProc : ProcBehavior
  now : Nat
  hasPackageJson : Bool
  packageJson : PackageJson

/-- Result dictionary of `gcp_npm_push`. -/
inductive NpmPushResult where
  | errOnly (msg : String)
  | failure (msg : String)
  | ok (package_name : Option String) (version : Option String)
      (repository : String) (output : String)
deriving DecidableEq, Repr

/-- Output of one `gcp_npm_push` run, including the final on-disk manifest
(mutations are not rolled back on failure). -/
structure NpmPushOut where
  result : NpmPushResult
  finalPackageJson : PackageJson
  events : List Event

/-- The `gcp_npm_push` workflow: validate arguments, require
`source_dir/package.json`, make a temporary directory, provision auth
(npm registry host), write `.npmrc` into the source directory itself,
bump the manifest version when `auto_version` (default true), apply any
package-name override, run `npm publish` with the configured timeout, and
on success re-read the manifest to report the final name and version. -/
def gcp_npm_push (env : NpmPushEnv) (args : NpmPushArgs) : NpmPushOut :=
  let auto_version := args.auto_version.getD true
  let timeout := args.timeout.getD 300
  if !(truthy args.source_dir) then
    ⟨NpmPushResult.errOnly "Source directory is required", env.packageJson, []⟩
  else if !(truthy args.repository_path) then
    ⟨NpmPushResult.errOnly "GCP Artifact Registry repository path is required",
     env.packageJson, []⟩
  else
    let source_dir := args.source_dir.getD ""
    let repository_path := args.repository_path.getD ""
    let package_json_path := joinPath source_dir "package.json"
    if !env.hasPackageJson then
      ⟨NpmPushResult.errOnly ("package.json not found in " ++ source_dir),
       env.packageJson, []⟩
    else
      let (token?, authCalls) := setup_gcp_auth "us-central1-npm.pkg.dev" env.auth
      let ev0 := Event.mkdtemp :: authCalls.map Event.proc
      match token? with
      | none =>
        ⟨NpmPushResult.errOnly "Failed to authenticate with GCP", env.packageJson,
         ev0 ++ [Event.rmtree]⟩
      | some token =>
        if token == "" then
          ⟨NpmPushResult.errOnly "Failed to authenticate with GCP", env.packageJson,
           ev0 ++ [Event.rmtree]⟩
        else
          let (_prior, npmrcPath, _content) :=
            configure_npmrc source_dir repository_path token none
          let ev1 := ev0 ++ [Event.writeFile npmrcPath]
          let (pkg1, ev2) :=
            if auto_version then
              ((update_package_version env.now env.packageJson).1,
               ev1 ++ [Event.writeFile package_json_path])
            else
              (env.packageJson, ev1)
          let (pkg2, ev3) :=
            if truthy args.package_name then
              ({ pkg1 with name := args.package_name },
               ev2 ++ [Event.writeFile package_json_path])
            else
              (pkg1, ev2)
          let publishCall : Call :=
            ⟨["npm", "publish", "--registry", "https://" ++ repository_path ++ "/"],
             some timeout⟩
          let ev4 := ev3 ++ [Event.proc publishCall]
          match subprocessRun env.publishProc (some timeout) with
          | Except.error _ =>
            ⟨NpmPushResult.failure
              ("Command timed out after " ++ toString timeout ++ " seconds"),
             pkg2, ev4 ++ [Event.rmtree]⟩
          | Except.ok pp =>
            if pp.returncode ≠ 0 then
              ⟨NpmPushResult.failure ("Failed to publish package: " ++ pp.stderr),
               pkg2, ev4 ++ [Event.rmtree]⟩
            else
              ⟨NpmPushResult.ok pkg2.name pkg2.version repository_path pp.stdout,
               pkg2, ev4 ++ [Event.rmtree]⟩

/-! ## publish.sh workflow (`gcp_npm_publish.py`) -/

/-- Arguments of the `gcp_npm_publish` workflow. -/
structure PublishArgs where
  project_dir : Option String
  dry_run : Option Bool

/-- Environment of one `gcp_npm_publish` run: whether the project
directory and its `publish.sh` exist, the script's content, and the
oracles for the token CLI and the script run. -/
structure PublishEnv where
  projectDirExists : Bool
  publishShExists : Bool
  publishShContent : String
  tokenProc : ProcBehavior
  scriptProc : ProcBehavior

/-- Result dictionary of `gcp_npm_publish`. -/
inductive PublishResult where
  | errOnly (msg : String)
  | ok (output : String) (dry_run : Bool)
  | failed (stdout stderr : String) (dry_run : Bool)
deriving DecidableEq, Repr

/-- Output of one `gcp_npm_publish` run: the result, the content of
`publish.sh` at the moment the script subprocess was started (when it
was), and its final content after the run. -/
structure PublishOut where
  result : PublishResult
  contentDuringRun : Option String
  finalContent : String
  events : List Event

/-- The `gcp_npm_publish` workflow: validate the project directory and
`publish.sh`, chmod the script, obtain a token (no timeout); then, when
`dry_run` is set, read the script, rewrite every `npm publish` occurrence
to `npm publish --dry-run`, run `./publish.sh` (no timeout), and write
the original content back once the run returns, whatever its exit code. -/
def gcp_npm_publish (env : PublishEnv) (args : PublishArgs) : PublishOut :=
  let dry_run := args.dry_run.getD false
  if !(truthy args.project_dir) then
    ⟨PublishResult.errOnly "Project directory is required", none,
     env.publishShContent, []⟩
  else
    let project_dir := args.project_dir.getD ""
    if !env.projectDirExists then
      ⟨PublishResult.errOnly ("Project directory does not exist: " ++ project_dir),
       none, env.publishShContent, []⟩
    else if !env.publishShExists then
      ⟨PublishResult.errOnly ("publish.sh not found in " ++ project_dir),
       none, env.publishShContent, []⟩
    else
      let publishScript := joinPath project_dir "publish.sh"
      let tokenCall : Call := ⟨["gcloud", "auth", "print-access-token"], none⟩
      let ev0 := [Event.chmod publishScript, Event.proc tokenCall]
      match subprocessRun env.tokenProc none with
      | Except.error _ =>
        ⟨PublishResult.errOnly "Failed to get GCP access token", none,
         env.publishShContent, ev0⟩
      | Except.ok tp =>
        if tp.returncode ≠ 0 then
          ⟨PublishResult.errOnly "Failed to get GCP access token", none,
           env.publishShContent, ev0⟩
        else
          let content := env.publishShContent
          let runContent :=
            if dry_run then content.replace "npm publish" "npm publish --dry-run"
            else content
          let ev1 :=
            if dry_run then ev0 ++ [Event.writeFile publishScript] else ev0
          let scriptCall : Call := ⟨["./publish.sh"], none⟩
          let ev2 := ev1 ++ [Event.proc scriptCall]
          match subprocessRun env.scriptProc none with
          | Except.error _ =>
            ⟨PublishResult.errOnly "unreachable", some runContent, runContent, ev2⟩
          | Except.ok sp =>
            let finalContent := if dry_run then content else runContent
            let ev3 :=
              if dry_run then ev2 ++ [Event.writeFile publishScript] else ev2
            if sp.returncode == 0 then
              ⟨PublishResult.ok sp.stdout dry_run, some runContent, finalContent, ev3⟩
            else
              ⟨PublishResult.failed sp.stdout sp.stderr dry_run, some runContent,
               finalContent, ev3⟩

/-! ## Concrete fixtures used by counterexamples and witnesses -/

/-- An auth oracle on which both auth-CLI invocations succeed. -/
def authOk : AuthEnv := ⟨⟨1, ⟨0, "tok\n", ""⟩⟩, ⟨1, ⟨0, "", ""⟩⟩⟩

/-- A quick subprocess oracle exiting 0 with the given stdout. -/
def procOk (out : String) : ProcBehavior := ⟨1, ⟨0, out, ""⟩⟩

/-- A sample wall-clock reading (2024-01-02 03:04:05). -/
def dtSample : DateTime := ⟨2024, 1, 2, 3, 4, 5⟩

/-- Pull request whose repository path has only two slash-delimited
segments. -/
def pullArgsTwoSeg : PullArgs := ⟨some "@observability/app", some "x/y", none, none, none⟩

/-- Pull environment in which every subprocess succeeds. -/
def pullEnvTwoSeg : PullEnv :=
  ⟨authOk, procOk "", procOk "1.0.0", procOk "packed-ok", "/tmp/work",
   ["app-1.0.0.tgz"], [Node.dir "package" [Node.file "index.js"]]⟩

/-- Valid archive-push request with default output directory and timeout. -/
def pushArgsFull : PushArgs :=
  ⟨some "src", some "us-central1-docker.pkg.dev/proj/repo", some "svc", none, none⟩

/-- Archive-push environment whose upload CLI blocks for 1000000 seconds
before succeeding. -/
def pushEnvSlowUpload : PushEnv :=
  ⟨authOk, ⟨1000000, ⟨0, "OK", ""⟩⟩, dtSample, dtSample⟩

/-- A filesystem containing the source directory `src`. -/
def fsWithSrc : FS := ⟨["src"], []⟩

/-- Pull environment whose `npm view` subprocess blocks for 1000 seconds. -/
def pullEnvSlowView : PullEnv :=
  ⟨authOk, procOk "", ⟨1000, ⟨0, "", ""⟩⟩, procOk "packed-ok", "/tmp/work",
   ["app-1.0.0.tgz"], [Node.dir "package" [Node.file "index.js"]]⟩

/-! # Theorems -/

/-- Helper: when both auth-CLI invocations exit 0, `setup_gcp_auth`
returns the stripped stdout of the token command, and records exactly the
two (timeout-less) calls. -/
theorem setup_gcp_auth_ok (host : String) (env : AuthEnv)
    (h1 : env.tokenProc.res.returncode = 0) (h2 : env.dockerProc.res.returncode = 0) :
    setup_gcp_auth host env =
      (some (stripStr env.tokenProc.res.stdout),
       [⟨["gcloud", "auth", "print-access-token"], none⟩,
        ⟨["gcloud", "auth", "configure-docker", host], none⟩]) := by
  simp [setup_gcp_auth, subprocessRun, h1, h2]

/-- C8: the Auth Provisioner returns no token when the token-printing CLI
exits non-zero, and when the token step succeeds but the
docker-credential-configuration step exits non-zero the whole provisioning
fails and the already-obtained token is discarded. -/
theorem auth_failure_discards_token (host : String) (env : AuthEnv)
    (h : env.tokenProc.res.returncode ≠ 0 ∨ env.dockerProc.res.returncode ≠ 0) :
    (setup_gcp_auth host env).1 = none := by
  rcases h with h | h
  · simp [setup_gcp_auth, subprocessRun, h]
  · by_cases ht : env.tokenProc.res.returncode = 0
    · simp [setup_gcp_auth, subprocessRun, ht, h]
    · simp [setup_gcp_auth, subprocessRun, ht]

/-- Witness for `auth_failure_discards_token`: token step succeeds, docker
step exits 1, no token is returned. -/
theorem auth_failure_discards_token_witness :
    ((⟨⟨1, ⟨0, "tok", ""⟩⟩, ⟨1, ⟨1, "", "cfg failed"⟩⟩⟩ : AuthEnv).tokenProc.res.returncode ≠ 0 ∨
      (⟨⟨1, ⟨0, "tok", ""⟩⟩, ⟨1, ⟨1, "", "cfg failed"⟩⟩⟩ : AuthEnv).dockerProc.res.returncode ≠ 0) ∧
    (setup_gcp_auth "us-central1-docker.pkg.dev"
      ⟨⟨1, ⟨0, "tok", ""⟩⟩, ⟨1, ⟨1, "", "cfg failed"⟩⟩⟩).1 = none :=
  ⟨Or.inr (by decide),
   auth_failure_discards_token "us-central1-docker.pkg.dev" _ (Or.inr (by decide))⟩

/-- C7: an archive-push request with `repository_path` but neither
`source_dir` nor `artifact_name` returns exactly the bare
`Source directory is required` error, with no subprocess invocation and
no filesystem effect. -/
theorem push_missing_source_rejected_immediately (env : PushEnv) (fs : FS) :
    gcp_artifact_push env fs ⟨none, some "x/y/z", none, none, none⟩ =
      ⟨PushResult.errOnly "Source directory is required", [], fs⟩ := rfl


/-- C9: in `gcp_npm_publish` with `dry_run` true, whenever the
`publish.sh` subprocess returns (any exit code), the script ran with the
`npm publish --dry-run` substitution applied and its final content equals
the original content: the file is restored exactly. -/
theorem publish_dry_run_restores_script (env : PublishEnv) (args : PublishArgs)
    (hdir : truthy args.project_dir = true)
    (hex : env.projectDirExists = true)
    (hsh : env.publishShExists = true)
    (htok : env.tokenProc.res.returncode = 0)
    (hdry : args.dry_run = some true) :
    (gcp_npm_publish env args).contentDuringRun =
      some (env.publishShContent.replace "npm publish" "npm publish --dry-run") ∧
    (gcp_npm_publish env args).finalContent = env.publishShContent := by
  simp only [gcp_npm_publish, hdir, hex, hsh, hdry, subprocessRun, htok]
  simp only [Option.getD_some, Bool.not_true, Bool.false_eq_true, if_false, if_true,
    Bool.not_eq_eq_eq_not, Bool.not_false, ne_eq, eq_self_iff_true, not_true_eq_false,
    ite_false]
  constructor <;> split <;> rfl

/-- Witness for `publish_dry_run_restores_script`: a concrete dry-run
whose script exits 1 still restores the original script content. -/
theorem publish_dry_run_restores_script_witness :
    truthy (some "proj") = true ∧
    (gcp_npm_publish ⟨true, true, "cd app\nnpm publish\n", procOk "tok", ⟨1, ⟨1, "", "publish error"⟩⟩⟩
      ⟨some "proj", some true⟩).finalContent = "cd app\nnpm publish\n" :=
  ⟨by decide,
   (publish_dry_run_restores_script
     ⟨true, true, "cd app\nnpm publish\n", procOk "tok", ⟨1, ⟨1, "", "publish error"⟩⟩⟩
     ⟨some "proj", some true⟩ (by decide) rfl rfl (by decide) rfl).2⟩

/-- C4: given an existing source directory, the Archive Builder produces a
gzip tar archive named `<artifact_name>_<YYYYMMDD_HHMMSS>.tar.gz` inside
the output directory (created if absent) whose single root entry is the
source directory's base name, and returns the full path and the generated
filename. -/
theorem builder_creates_timestamped_archive (fs : FS) (now : DateTime)
    (source_dir output_dir artifact_name : String)
    (h : source_dir ∈ fs.dirs) :
    ∃ fs2,
      create_compressed_artifact fs now source_dir output_dir artifact_name =
        (fs2,
         CompressResult.ok
           (joinPath output_dir
             (artifact_name ++ "_" ++ strftimeUnderscore now ++ ".tar.gz"))
           (artifact_name ++ "_" ++ strftimeUnderscore now ++ ".tar.gz")
           (strftimeUnderscore now),
         [Event.makedirs output_dir,
          Event.tarCreate
            (joinPath output_dir
              (artifact_name ++ "_" ++ strftimeUnderscore now ++ ".tar.gz"))
            (basename source_dir)]) ∧
      output_dir ∈ fs2.dirs ∧
      (joinPath output_dir (artifact_name ++ "_" ++ strftimeUnderscore now ++ ".tar.gz"),
        basename source_dir) ∈ fs2.archives := by
  refine ⟨⟨if output_dir ∈ fs.dirs then fs.dirs else output_dir :: fs.dirs,
    (joinPath output_dir (artifact_name ++ "_" ++ strftimeUnderscore now ++ ".tar.gz"),
      basename source_dir) :: fs.archives⟩, ?_, ?_, ?_⟩
  · simp only [create_compressed_artifact, if_pos h]
  · by_cases hd : output_dir ∈ fs.dirs <;> simp [hd]
  · simp

/-- Witness for `builder_creates_timestamped_archive` at a concrete
filesystem, clock and names. -/
theorem builder_creates_timestamped_archive_witness :
    "src" ∈ fsWithSrc.dirs ∧
    ∃ fs2,
      create_compressed_artifact fsWithSrc dtSample "src" "artifacts" "svc" =
        (fs2,
         CompressResult.ok
           (joinPath "artifacts" ("svc" ++ "_" ++ strftimeUnderscore dtSample ++ ".tar.gz"))
           ("svc" ++ "_" ++ strftimeUnderscore dtSample ++ ".tar.gz")
           (strftimeUnderscore dtSample),
         [Event.makedirs "artifacts",
          Event.tarCreate
            (joinPath "artifacts" ("svc" ++ "_" ++ strftimeUnderscore dtSample ++ ".tar.gz"))
            (basename "src")]) ∧
      "artifacts" ∈ fs2.dirs ∧
      (joinPath "artifacts" ("svc" ++ "_" ++ strftimeUnderscore dtSample ++ ".tar.gz"),
        basename "src") ∈ fs2.archives :=
  ⟨by decide,
   builder_creates_timestamped_archive fsWithSrc dtSample "src" "artifacts" "svc" (by decide)⟩

/-- C3 counterexample: with the upload CLI exiting 1 and stderr `boom`,
the Archive Uploader's error detail is `Failed to push artifact: boom`,
which is not the captured stderr verbatim. -/
theorem uploader_wraps_stderr_counterexample :
    (push_to_artifact_registry ⟨1, ⟨1, "", "boom"⟩⟩ dtSample
        "artifacts/a.tar.gz" "h/p/r" "a.tar.gz" "tok").1 =
      RegPushResult.err "Failed to push artifact: boom" ∧
    "Failed to push artifact: boom" ≠ "boom" := by
  constructor
  · rfl
  · decide

/-- C3 amended: on non-zero exit of the upload CLI, the uploader's error
detail is the captured stderr prefixed with `Failed to push artifact: `,
and the enclosing workflow prefixes it once more, so the returned error is
`Failed to push artifact: Failed to push artifact: <stderr>`. -/
theorem push_error_detail_wraps_stderr (env : PushEnv) (fs : FS) (args : PushArgs)
    (hs : truthy args.source_dir = true)
    (hr : truthy args.repository_path = true)
    (ha : truthy args.artifact_name = true)
    (hsrc : args.source_dir.getD "" ∈ fs.dirs)
    (htok : env.auth.tokenProc.res.returncode = 0)
    (hne : stripStr env.auth.tokenProc.res.stdout ≠ "")
    (hdok : env.auth.dockerProc.res.returncode = 0)
    (hseg : ¬ (splitSlash (args.repository_path.getD "")).length < 3)
    (hrc : env.uploadProc.res.returncode ≠ 0) :
    (gcp_artifact_push env fs args).result =
      PushResult.errOnly
        ("Failed to push artifact: Failed to push artifact: " ++ env.uploadProc.res.stderr) := by
  simp only [gcp_artifact_push, hs, hr, ha, Bool.not_true, Bool.false_eq_true, if_false,
    setup_gcp_auth_ok _ env.auth htok hdok]
  simp only [create_compressed_artifact, if_pos hsrc, push_to_artifact_registry,
    if_neg hseg, subprocessRun]
  simp [hrc, hne]
  rw [← String.append_assoc]
  rfl

/-- Witness for `push_error_detail_wraps_stderr`: concrete failing upload. -/
theorem push_error_detail_wraps_stderr_witness :
    truthy pushArgsFull.source_dir = true ∧
    (gcp_artifact_push ⟨authOk, ⟨1, ⟨1, "", "denied"⟩⟩, dtSample, dtSample⟩
        fsWithSrc pushArgsFull).result =
      PushResult.errOnly "Failed to push artifact: Failed to push artifact: denied" :=
  ⟨by decide,
   push_error_detail_wraps_stderr ⟨authOk, ⟨1, ⟨1, "", "denied"⟩⟩, dtSample, dtSample⟩
     fsWithSrc pushArgsFull (by decide) (by decide) (by decide) (by decide) (by decide)
     (by decide) (by decide) (by decide) (by decide)⟩

/-- Helper: shape of a fully successful `gcp_npm_push` run with
auto-versioning enabled. -/
theorem gcp_npm_push_auto_version_ok (env : NpmPushEnv) (args : NpmPushArgs)
    (hs : truthy args.source_dir = true)
    (hr : truthy args.repository_path = true)
    (hav : args.auto_version.getD true = true)
    (hpj : env.hasPackageJson = true)
    (htok : env.auth.tokenProc.res.returncode = 0)
    (hne : stripStr env.auth.tokenProc.res.stdout ≠ "")
    (hdok : env.auth.dockerProc.res.returncode = 0)
    (hdur : env.publishProc.duration ≤ args.timeout.getD 300)
    (hrc : env.publishProc.res.returncode = 0) :
    (gcp_npm_push env args).result =
      NpmPushResult.ok
        (if truthy args.package_name then args.package_name else env.packageJson.name)
        (some ("0.1." ++ toString env.now))
        (args.repository_path.getD "") env.publishProc.res.stdout ∧
    (gcp_npm_push env args).finalPackageJson.version =
      some ("0.1." ++ toString env.now) := by
  have hnt : ¬ args.timeout.getD 300 < env.publishProc.duration := by omega
  simp only [gcp_npm_push, hs, hr, hav, hpj, subprocessRun,
    setup_gcp_auth_ok _ env.auth htok hdok, if_neg hnt]
  simp only [update_package_version]
  simp [hne, hrc]
  split <;> simp_all [update_package_version]

/-- C5: with `auto_version` enabled (its default), the Package Publisher
overwrites the manifest version with exactly `0.1.<unix-timestamp>` in
whole seconds and reports it, so two invocations executed within the same
wall-clock second (even against different manifests) produce the same
version string. -/
theorem npm_push_auto_version_same_second
    (env : NpmPushEnv) (args : NpmPushArgs)
    (hs : truthy args.source_dir = true)
    (hr : truthy args.repository_path = true)
    (hav : args.auto_version.getD true = true)
    (hpj : env.hasPackageJson = true)
    (htok : env.auth.tokenProc.res.returncode = 0)
    (hne : stripStr env.auth.tokenProc.res.stdout ≠ "")
    (hdok : env.auth.dockerProc.res.returncode = 0)
    (hdur : env.publishProc.duration ≤ args.timeout.getD 300)
    (hrc : env.publishProc.res.returncode = 0)
    (env2 : NpmPushEnv) (args2 : NpmPushArgs)
    (hs2 : truthy args2.source_dir = true)
    (hr2 : truthy args2.repository_path = true)
    (hav2 : args2.auto_version.getD true = true)
    (hpj2 : env2.hasPackageJson = true)
    (htok2 : env2.auth.tokenProc.res.returncode = 0)
    (hne2 : stripStr env2.auth.tokenProc.res.stdout ≠ "")
    (hdok2 : env2.auth.dockerProc.res.returncode = 0)
    (hdur2 : env2.publishProc.duration ≤ args2.timeout.getD 300)
    (hrc2 : env2.publishProc.res.returncode = 0)
    (hnow : env2.now = env.now) :
    (gcp_npm_push env args).finalPackageJson.version =
      some ("0.1." ++ toString env.now) ∧
    (gcp_npm_push env args).result =
      NpmPushResult.ok
        (if truthy args.package_name then args.package_name else env.packageJson.name)
        (some ("0.1." ++ toString env.now))
        (args.repository_path.getD "") env.publishProc.res.stdout ∧
    (gcp_npm_push env2 args2).finalPackageJson.version =
      (gcp_npm_push env args).finalPackageJson.version := by
  obtain ⟨e1, e2⟩ := gcp_npm_push_auto_version_ok env args hs hr hav hpj htok hne hdok hdur hrc
  obtain ⟨_, e4⟩ :=
    gcp_npm_push_auto_version_ok env2 args2 hs2 hr2 hav2 hpj2 htok2 hne2 hdok2 hdur2 hrc2
  exact ⟨e2, e1, by rw [e2, e4, hnow]⟩

/-- Witness for `npm_push_auto_version_same_second`: two concrete runs at
unix time 1700000000 against different manifests yield the same reported
version. -/
theorem npm_push_auto_version_same_second_witness :
    truthy (some "app") = true ∧
    (gcp_npm_push
        ⟨authOk, procOk "published", 1700000000, true, ⟨some "app", some "1.2.3"⟩⟩
        ⟨some "app", some "us-central1-npm.pkg.dev/proj/repo", none, none, none⟩).finalPackageJson.version =
      some ("0.1." ++ toString (1700000000 : Nat)) ∧
    (gcp_npm_push
        ⟨authOk, procOk "published", 1700000000, true, ⟨some "other", some "9.9.9"⟩⟩
        ⟨some "other", some "us-central1-npm.pkg.dev/proj/repo", none, none, none⟩).finalPackageJson.version =
      (gcp_npm_push
        ⟨authOk, procOk "published", 1700000000, true, ⟨some "app", some "1.2.3"⟩⟩
        ⟨some "app", some "us-central1-npm.pkg.dev/proj/repo", none, none, none⟩).finalPackageJson.version :=
  ⟨by decide,
   (npm_push_auto_version_same_second
      ⟨authOk, procOk "published", 1700000000, true, ⟨some "app", some "1.2.3"⟩⟩
      ⟨some "app", some "us-central1-npm.pkg.dev/proj/repo", none, none, none⟩
      (by decide) (by decide) (by decide) (by decide) (by decide) (by decide) (by decide)
      (by decide) (by decide)
      ⟨authOk, procOk "published", 1700000000, true, ⟨some "other", some "9.9.9"⟩⟩
      ⟨some "other", some "us-central1-npm.pkg.dev/proj/repo", none, none, none⟩
      (by decide) (by decide) (by decide) (by decide) (by decide) (by decide) (by decide)
      (by decide) (by decide) rfl).1,
   (npm_push_auto_version_same_second
      ⟨authOk, procOk "published", 1700000000, true, ⟨some "app", some "1.2.3"⟩⟩
      ⟨some "app", some "us-central1-npm.pkg.dev/proj/repo", none, none, none⟩
      (by decide) (by decide) (by decide) (by decide) (by decide) (by decide) (by decide)
      (by decide) (by decide)
      ⟨authOk, procOk "published", 1700000000, true, ⟨some "other", some "9.9.9"⟩⟩
      ⟨some "other", some "us-central1-npm.pkg.dev/proj/repo", none, none, none⟩
      (by decide) (by decide) (by decide) (by decide) (by decide) (by decide) (by decide)
      (by decide) (by decide) rfl).2.2⟩

/-- C10: whenever `gcp_npm_pull` returns a success result, its `version`
field is the version supplied in the request (or the default `latest`),
independent of whatever concrete version the package manager resolved. -/
theorem pull_reports_requested_version (env : PullEnv) (args : PullArgs)
    (pn v od : String) (files : List String) (out : String)
    (h : (gcp_npm_pull env args).result = PullResult.ok pn v od files out) :
    v = args.version.getD "latest" := by
  simp only [gcp_npm_pull] at h
  repeat' split at h
  all_goals simp_all

/-- Witness for `pull_reports_requested_version`: a concrete successful
pull with no `version` key reports `latest`. -/
theorem pull_reports_requested_version_witness :
    (gcp_npm_pull pullEnvTwoSeg pullArgsTwoSeg).result =
      PullResult.ok "@observability/app" "latest" "fetched-package" ["index.js"] "packed-ok" ∧
    "latest" = pullArgsTwoSeg.version.getD "latest" :=
  ⟨by decide,
   pull_reports_requested_version pullEnvTwoSeg pullArgsTwoSeg
     "@observability/app" "latest" "fetched-package" ["index.js"] "packed-ok" (by decide)⟩

/-- C1 counterexample: the Package Puller performs no segment-count check
on `repository_path`: with the two-segment path `x/y` it invokes the auth
CLI subprocess and completes successfully, returning no invalid-format
error. -/
theorem pull_no_segment_check_counterexample :
    pullArgsTwoSeg.repository_path = some "x/y" ∧
    (splitSlash "x/y").length < 3 ∧
    Event.proc ⟨["gcloud", "auth", "print-access-token"], none⟩ ∈
      (gcp_npm_pull pullEnvTwoSeg pullArgsTwoSeg).events ∧
    (gcp_npm_pull pullEnvTwoSeg pullArgsTwoSeg).result =
      PullResult.ok "@observability/app" "latest" "fetched-package" ["index.js"] "packed-ok" := by
  decide

/-- C1 amended: only the archive-push workflow checks the segment count,
and a short `repository_path` is rejected with the invalid-format error
only after the auth CLI subprocesses have run; the upload CLI itself is
never invoked. -/
theorem push_short_path_rejected_after_auth (env : PushEnv) (fs : FS) (args : PushArgs)
    (hs : truthy args.source_dir = true)
    (hr : truthy args.repository_path = true)
    (ha : truthy args.artifact_name = true)
    (hsrc : args.source_dir.getD "" ∈ fs.dirs)
    (htok : env.auth.tokenProc.res.returncode = 0)
    (hne : stripStr env.auth.tokenProc.res.stdout ≠ "")
    (hdok : env.auth.dockerProc.res.returncode = 0)
    (hshort : (splitSlash (args.repository_path.getD "")).length < 3) :
    (gcp_artifact_push env fs args).result =
      PushResult.errOnly
        "Failed to push artifact: Invalid repository path format. Expected: region-docker.pkg.dev/project-id/repository-name" ∧
    Event.proc ⟨["gcloud", "auth", "print-access-token"], none⟩ ∈
      (gcp_artifact_push env fs args).events ∧
    ∀ c : Call, Event.proc c ∈ (gcp_artifact_push env fs args).events →
      c.argv.getD 1 "" ≠ "artifacts" := by
  have hauth := setup_gcp_auth_ok "us-central1-docker.pkg.dev" env.auth htok hdok
  simp only [gcp_artifact_push, hs, hr, ha, hauth, create_compressed_artifact, if_pos hsrc,
    push_to_artifact_registry, if_pos hshort]
  simp [hne]

/-- C2 counterexample: in a concrete archive-push run, the auth CLI and
the upload CLI are both invoked without any timeout argument, and an
upload blocking for 1000000 seconds (far past the default 300) still
completes normally instead of producing the timeout-specific error. -/
theorem push_no_timeout_counterexample :
    300 < pushEnvSlowUpload.uploadProc.duration ∧
    pushArgsFull.timeout = none ∧
    Event.proc ⟨["gcloud", "auth", "print-access-token"], none⟩ ∈
      (gcp_artifact_push pushEnvSlowUpload fsWithSrc pushArgsFull).events ∧
    Event.proc ⟨uploadArgv "repo" "proj" "svc_20240102_030405.tar.gz" "20240102.030405"
        "artifacts/svc_20240102_030405.tar.gz", none⟩ ∈
      (gcp_artifact_push pushEnvSlowUpload fsWithSrc pushArgsFull).events ∧
    (gcp_artifact_push pushEnvSlowUpload fsWithSrc pushArgsFull).result ≠
      PushResult.failure "Command timed out after 300 seconds" := by
  decide

/-- C2 amended: in the Package Puller the `npm view` and `npm pack`
invocations carry the configured timeout (default 300) while the auth CLI
invocation carries none, and when an npm call blocks past the timeout the
workflow returns the timeout-specific error naming the configured value. -/
theorem pull_npm_timeout_propagation (env : PullEnv) (args : PullArgs)
    (hp : truthy args.package_name = true)
    (hr : truthy args.repository_path = true)
    (htok : env.auth.tokenProc.res.returncode = 0)
    (hne : stripStr env.auth.tokenProc.res.stdout ≠ "")
    (hdok : env.auth.dockerProc.res.returncode = 0) :
    (args.timeout.getD 300 < env.viewProc.duration →
      (gcp_npm_pull env args).result =
        PullResult.failure
          ("Command timed out after " ++ toString (args.timeout.getD 300) ++ " seconds") ∧
      Event.proc ⟨["npm", "view", args.package_name.getD "", "versions", "--registry",
          "https://" ++ args.repository_path.getD "" ++ "/"],
        some (args.timeout.getD 300)⟩ ∈ (gcp_npm_pull env args).events ∧
      Event.proc ⟨["gcloud", "auth", "print-access-token"], none⟩ ∈
        (gcp_npm_pull env args).events) ∧
    (env.viewProc.duration ≤ args.timeout.getD 300 → env.viewProc.res.returncode = 0 →
      args.timeout.getD 300 < env.packProc.duration →
      (gcp_npm_pull env args).result =
        PullResult.failure
          ("Command timed out after " ++ toString (args.timeout.getD 300) ++ " seconds") ∧
      Event.proc ⟨["npm", "pack",
          (if (args.version.getD "latest") != "latest" then
            args.package_name.getD "" ++ "@" ++ args.version.getD "latest"
          else args.package_name.getD ""), "--registry",
          "https://" ++ args.repository_path.getD "" ++ "/"],
        some (args.timeout.getD 300)⟩ ∈ (gcp_npm_pull env args).events) := by
  have hauth := setup_gcp_auth_ok "us-central1-npm.pkg.dev" env.auth htok hdok
  refine ⟨?_, ?_⟩
  · intro hv
    have hrun : subprocessRun env.viewProc (some (args.timeout.getD 300)) =
        Except.error () := by
      simp [subprocessRun, hv]
    simp [gcp_npm_pull, hp, hr, hauth, hne, hrun]
  · intro h1 h2 h3
    have hrun1 : subprocessRun env.viewProc (some (args.timeout.getD 300)) =
        Except.ok env.viewProc.res := by
      simp [subprocessRun, Nat.not_lt.mpr h1]
    have hrun2 : subprocessRun env.packProc (some (args.timeout.getD 300)) =
        Except.error () := by
      simp [subprocessRun, h3]
    simp [gcp_npm_pull, hp, hr, hauth, hne, hrun1, hrun2, h2]

/-- Witness for `push_short_path_rejected_after_auth`: a concrete
two-segment repository path yields the wrapped invalid-format error. -/
theorem push_short_path_rejected_after_auth_witness :
    (splitSlash "x/y").length < 3 ∧
    (gcp_artifact_push ⟨authOk, procOk "OK", dtSample, dtSample⟩ fsWithSrc
        ⟨some "src", some "x/y", some "svc", none, none⟩).result =
      PushResult.errOnly
        "Failed to push artifact: Invalid repository path format. Expected: region-docker.pkg.dev/project-id/repository-name" :=
  ⟨by decide,
   (push_short_path_rejected_after_auth ⟨authOk, procOk "OK", dtSample, dtSample⟩ fsWithSrc
      ⟨some "src", some "x/y", some "svc", none, none⟩ (by decide) (by decide) (by decide)
      (by decide) (by decide) (by decide) (by decide) (by decide)).1⟩

/-- Witness for `pull_npm_timeout_propagation`: an `npm view` blocking for
1000 seconds against the default 300-second timeout yields the
timeout-specific error naming 300. -/
theorem pull_npm_timeout_propagation_witness :
    truthy pullArgsTwoSeg.package_name = true ∧
    300 < pullEnvSlowView.viewProc.duration ∧
    (gcp_npm_pull pullEnvSlowView pullArgsTwoSeg).result =
      PullResult.failure ("Command timed out after " ++ toString (300 : Nat) ++ " seconds") :=
  ⟨by decide, by decide,
   ((pull_npm_timeout_propagation pullEnvSlowView pullArgsTwoSeg (by decide) (by decide)
      (by decide) (by decide) (by decide)).1 (by decide)).1⟩

/-- Helper: moving children whose names are pairwise distinct, absent from
the other top-level entries, and different from `package` appends them all
at top level. -/
theorem moveChildren_disjoint (cs : List Node) :
    ∀ top : List Node,
      (cs.map Node.name).Nodup →
      (∀ n ∈ cs.map Node.name, n ∉ top.map Node.name) →
      "package" ∉ cs.map Node.name →
      moveChildren cs top = Except.ok (top ++ cs) := by
  induction cs with
  | nil =>
    intro top _ _ _
    simp [moveChildren]
  | cons c rest ih =>
    intro top hnodup hdisj hnp
    simp only [List.map_cons, List.mem_cons, not_or] at hnp
    obtain ⟨hcp, hrestp⟩ := hnp
    have hc1 : ¬ (c.name == "package") = true := by
      simp only [beq_iff_eq]
      exact fun h => hcp h.symm
    have hfind : top.find? (fun e => e.name == c.name) = none := by
      rw [List.find?_eq_none]
      intro e he
      simp only [beq_iff_eq]
      intro h
      exact hdisj c.name (List.mem_cons_self _ _) (h ▸ List.mem_map_of_mem Node.name he)
    have hnodup2 : (rest.map Node.name).Nodup := by
      simp only [List.map_cons, List.nodup_cons] at hnodup
      exact hnodup.2
    have hcnotrest : c.name ∉ rest.map Node.name := by
      simp only [List.map_cons, List.nodup_cons] at hnodup
      exact hnodup.1
    have hdisj2 : ∀ n ∈ rest.map Node.name, n ∉ (top ++ [c]).map Node.name := by
      intro n hn
      simp only [List.map_append, List.mem_append, List.map_cons, List.map_nil,
        List.mem_singleton, not_or]
      constructor
      · exact hdisj n (List.mem_cons_of_mem _ hn)
      · intro h
        exact hcnotrest (h ▸ hn)
    simp only [moveChildren, hfind]
    rw [if_neg hc1, ih (top ++ [c]) hnodup2 hdisj2 hrestp]
    simp

/-- Helper: flattening an output directory whose sole top-level entry is
the folder `package` moves all its children to the top level. -/
theorem flattenPackage_sole (cs : List Node)
    (hnodup : (cs.map Node.name).Nodup)
    (hnp : "package" ∉ cs.map Node.name) :
    flattenPackage [Node.dir "package" cs] = Except.ok cs := by
  have h1 : flattenPackage [Node.dir "package" cs] = moveChildren cs [] := rfl
  rw [h1, moveChildren_disjoint cs [] hnodup (by simp) hnp]
  simp

/-- C6 counterexample: when the output directory holds an extra top-level
entry besides the `package` folder, the flatten step keeps it, so the final
directory does not contain exactly the folder's N entries. -/
theorem flatten_extra_entry_counterexample :
    (flattenPackage [Node.dir "package" [Node.file "a.txt"], Node.file "extra.txt"]).map
        (fun l => l.map Node.name) = Except.ok ["extra.txt", "a.txt"] ∧
    (["extra.txt", "a.txt"] : List String) ≠ ["a.txt"] :=
  ⟨rfl, by decide⟩

/-- C6 amended: when the output directory after extraction has the folder
`package` as its sole top-level entry and the folder's children have
pairwise distinct names none of which is `package`, the successful pull
ends with exactly those children at the output directory's top level and no
`package` subfolder. -/
theorem pull_flatten_sole_package_dir (env : PullEnv) (args : PullArgs) (cs : List Node)
    (hp : truthy args.package_name = true)
    (hr : truthy args.repository_path = true)
    (htok : env.auth.tokenProc.res.returncode = 0)
    (hne : stripStr env.auth.tokenProc.res.stdout ≠ "")
    (hdok : env.auth.dockerProc.res.returncode = 0)
    (hvd : env.viewProc.duration ≤ args.timeout.getD 300)
    (hvrc : env.viewProc.res.returncode = 0)
    (hpd : env.packProc.duration ≤ args.timeout.getD 300)
    (hprc : env.packProc.res.returncode = 0)
    (tb : String) (tbs : List String)
    (htb : env.tempFiles.filter endsWithTgz = tb :: tbs)
    (hpe : env.postExtract = [Node.dir "package" cs])
    (hnodup : (cs.map Node.name).Nodup)
    (hnp : "package" ∉ cs.map Node.name) :
    (gcp_npm_pull env args).result =
      PullResult.ok (args.package_name.getD "") (args.version.getD "latest")
        (args.output_dir.getD "fetched-package") (cs.map Node.name)
        env.packProc.res.stdout := by
  have hauth := setup_gcp_auth_ok "us-central1-npm.pkg.dev" env.auth htok hdok
  have hrun1 : subprocessRun env.viewProc (some (args.timeout.getD 300)) =
      Except.ok env.viewProc.res := by
    simp [subprocessRun, Nat.not_lt.mpr hvd]
  have hrun2 : subprocessRun env.packProc (some (args.timeout.getD 300)) =
      Except.ok env.packProc.res := by
    simp [subprocessRun, Nat.not_lt.mpr hpd]
  have hflat := flattenPackage_sole cs hnodup hnp
  simp [gcp_npm_pull, hp, hr, hauth, hne, hrun1, hrun2, hvrc, hprc, htb, hpe, hflat]

/-- Witness for `pull_flatten_sole_package_dir` at a concrete environment
whose extraction yields `package/index.js`. -/
theorem pull_flatten_sole_package_dir_witness :
    truthy pullArgsTwoSeg.package_name = true ∧
    (gcp_npm_pull pullEnvTwoSeg pullArgsTwoSeg).result =
      PullResult.ok "@observability/app" "latest" "fetched-package" ["index.js"] "packed-ok" :=
  ⟨by decide,
   pull_flatten_sole_package_dir pullEnvTwoSeg pullArgsTwoSeg [Node.file "index.js"]
     (by decide) (by decide) (by decide) (by decide) (by decide) (by decide) (by decide)
     (by decide) (by decide) "app-1.0.0.tgz" [] (by decide) rfl (by decide) (by decide)⟩

end GcpTools
